import Mathlib

/-!
Shallow embedding of the client-side theme-resolution component of
sethfreeman/sethops-web (the `ThemeProvider` module): theme data model,
storage / OS-signal / render-target collaborators, and the provider's
operations (`getSystemTheme`, `getStoredTheme`, `saveTheme`,
`resolveTheme`, `applyTheme`, `setTheme`, the mount-time initialization
effect, the OS-change handler and the media-query subscription effect,
and the consumer hook `useTheme`).

The source is single-threaded and event-driven; every operation here is
one atomic transition on an explicit session state.  `console.warn`
calls are counted in a `warnings` field.  Fallible collaborator calls
(`localStorage`, `matchMedia`) are modelled with `Except Unit`.
-/

/-- A concrete rendered theme: `'light' | 'dark'`. -/
inductive ResolvedTheme where
  | light
  | dark
  deriving DecidableEq, Repr

/-- A user theme preference: `'light' | 'dark' | 'system'`. -/
inductive ThemePreference where
  | light
  | dark
  | system
  deriving DecidableEq, Repr

/-- The string persisted for a preference (the TS union's literal value). -/
def themeToString : ThemePreference → String
  | .light => "light"
  | .dark => "dark"
  | .system => "system"

/-- The string form of a resolved theme (used as the document class marker). -/
def resolvedToString : ResolvedTheme → String
  | .light => "light"
  | .dark => "dark"

/-- The cast `stored as 'light' | 'dark' | 'system'` after the membership
check `['light', 'dark', 'system'].includes(stored)` succeeded. -/
def parseStoredTheme (s : String) : Option ThemePreference :=
  if s = "light" then some .light
  else if s = "dark" then some .dark
  else if s = "system" then some .system
  else none

/-- The `localStorage` collaborator: an association list of key/value pairs
(most recent binding first, as observed through `getItem`) plus a flag
making both `getItem` and `setItem` throw (private browsing, quota, ...). -/
structure Storage where
  items : List (String × String)
  failing : Bool
  deriving DecidableEq, Repr

/-- `localStorage.getItem(key)`: `string | null`, or a thrown exception. -/
def Storage.getItem (s : Storage) (key : String) : Except Unit (Option String) :=
  if s.failing then .error () else .ok (s.items.lookup key)

/-- `localStorage.setItem(key, value)`: may throw; on success the new
binding shadows any previous one under the same key. -/
def Storage.setItem (s : Storage) (key value : String) : Except Unit Storage :=
  if s.failing then .error ()
  else .ok { s with items := (key, value) :: s.items }

/-- The host environment: whether `window` is defined, and the result of
`window.matchMedia('(prefers-color-scheme: dark)').matches` — `.ok b`
when the query works (`b` = OS prefers dark), `.error ()` when
`matchMedia` is unsupported or throws. -/
structure Env where
  hasWindow : Bool
  osQuery : Except Unit Bool
  deriving Repr

/-- The render target: the class list of `window.document.documentElement`. -/
structure Dom where
  rootClasses : List String
  deriving DecidableEq, Repr

/-- `classList.remove(c)`: drop the token from the list. -/
def classListRemove (cs : List String) (c : String) : List String :=
  cs.filter (fun x => x ≠ c)

/-- `classList.add(c)`: append the token unless already present. -/
def classListAdd (cs : List String) (c : String) : List String :=
  if c ∈ cs then cs else cs ++ [c]

/-- The provider's two React state cells: `theme` and `resolvedTheme`. -/
structure ProviderState where
  theme : ThemePreference
  resolvedTheme : ResolvedTheme
  deriving DecidableEq, Repr

/-- The full session state threaded through the provider's operations:
environment, configured storage key, storage contents, render target,
React state, and the number of `console.warn` calls so far. -/
structure SessionState where
  env : Env
  storageKey : String
  storage : Storage
  dom : Dom
  provider : ProviderState
  warnings : Nat

/-- Build a browser session (window present) with a working-or-failing
storage, an OS query that answers `b`, and zero warnings so far. -/
def mkSession (b : Bool) (key : String) (items : List (String × String))
    (failing : Bool) (dom : Dom) (st : ProviderState) : SessionState :=
  { env := { hasWindow := true, osQuery := .ok b }
    storageKey := key
    storage := { items := items, failing := failing }
    dom := dom
    provider := st
    warnings := 0 }

/-- `getSystemTheme`: `'light'` without a window; otherwise `matches ?
'dark' : 'light'`, with a warning and fallback to `'light'` if the media
query throws.  Returns the theme and the number of warnings emitted. -/
def getSystemTheme (env : Env) : ResolvedTheme × Nat :=
  if env.hasWindow = false then (.light, 0)
  else
    match env.osQuery with
    | .ok b => (if b then .dark else .light, 0)
    | .error _ => (.light, 1)

/-- `getStoredTheme`: `null` without a window; otherwise read
`localStorage.getItem(storageKey)` and keep the value only when it is
truthy and one of the three literal values; a thrown read is caught and
logged.  Returns the parsed preference (or `none`) and the warnings. -/
def getStoredTheme (env : Env) (storage : Storage) (storageKey : String) :
    Option ThemePreference × Nat :=
  if env.hasWindow = false then (none, 0)
  else
    match storage.getItem storageKey with
    | .error _ => (none, 1)
    | .ok none => (none, 0)
    | .ok (some s) =>
        if s ≠ "" ∧ (s = "light" ∨ s = "dark" ∨ s = "system") then
          (parseStoredTheme s, 0)
        else (none, 0)

/-- `saveTheme`: no-op without a window; otherwise
`localStorage.setItem(storageKey, newTheme)` with a thrown write caught
and logged.  Returns the (possibly unchanged) storage and the warnings. -/
def saveTheme (env : Env) (storage : Storage) (storageKey : String)
    (newTheme : ThemePreference) : Storage × Nat :=
  if env.hasWindow = false then (storage, 0)
  else
    match storage.setItem storageKey (themeToString newTheme) with
    | .ok s2 => (s2, 0)
    | .error _ => (storage, 1)

/-- `resolveTheme`: `'system'` defers to `getSystemTheme`, any other
preference resolves to itself. -/
def resolveTheme (env : Env) (currentTheme : ThemePreference) :
    ResolvedTheme × Nat :=
  match currentTheme with
  | .system => getSystemTheme env
  | .light => (.light, 0)
  | .dark => (.dark, 0)

/-- `applyTheme`: no-op without a window; otherwise remove both `'light'`
and `'dark'` from the document root's class list, add the new resolved
theme's class, and set the `resolvedTheme` state cell.  The source runs
these statements synchronously with no interleaved observer, so the whole
update is one atomic transition here. -/
def applyTheme (env : Env) (dom : Dom) (st : ProviderState)
    (newResolvedTheme : ResolvedTheme) : Dom × ProviderState :=
  if env.hasWindow = false then (dom, st)
  else
    let cs1 := classListRemove (classListRemove dom.rootClasses "light") "dark"
    let cs2 := classListAdd cs1 (resolvedToString newResolvedTheme)
    ({ rootClasses := cs2 }, { st with resolvedTheme := newResolvedTheme })

/-- `setTheme`: set the `theme` state cell, best-effort persist, resolve
the new preference against the current OS signal, and apply it. -/
def setTheme (s : SessionState) (newTheme : ThemePreference) : SessionState :=
  let st1 := { s.provider with theme := newTheme }
  let sv := saveTheme s.env s.storage s.storageKey newTheme
  let rv := resolveTheme s.env newTheme
  let ap := applyTheme s.env s.dom st1 rv.1
  { s with
    storage := sv.1
    dom := ap.1
    provider := ap.2
    warnings := s.warnings + sv.2 + rv.2 }

/-- The mount-time initialization effect: adopt the stored preference if
present (`getStoredTheme() || defaultTheme`), resolve it, set both state
cells and apply the resolved theme.  The effect's own `try`/`catch` is
unreachable since every inner call already catches its failures. -/
def initializeTheme (s : SessionState) (defaultTheme : ThemePreference) :
    SessionState :=
  let gv := getStoredTheme s.env s.storage s.storageKey
  let storedTheme := gv.1.getD defaultTheme
  let rv := resolveTheme s.env storedTheme
  let st1 : ProviderState := { theme := storedTheme, resolvedTheme := rv.1 }
  let ap := applyTheme s.env s.dom st1 rv.1
  { s with
    dom := ap.1
    provider := ap.2
    warnings := s.warnings + gv.2 + rv.2 }

/-- `handleSystemThemeChange`: on a media-query change event with
`e.matches = eMatches`, set `resolvedTheme` to the new OS value and apply
it; `theme` and storage are untouched. -/
def handleSystemThemeChange (s : SessionState) (eMatches : Bool) :
    SessionState :=
  let newSystemTheme : ResolvedTheme := if eMatches then .dark else .light
  let st1 := { s.provider with resolvedTheme := newSystemTheme }
  let ap := applyTheme s.env s.dom st1 newSystemTheme
  { s with dom := ap.1, provider := ap.2 }

/-- Which registration capabilities the `MediaQueryList` object offers:
the modern `addEventListener` or the legacy `addListener`. -/
structure MediaQueryApi where
  hasAddEventListener : Bool
  hasAddListener : Bool
  deriving DecidableEq, Repr

/-- Which registration path the subscription effect took. -/
inductive SubMethod where
  | modern
  | legacy
  | noneAvail
  deriving DecidableEq, Repr

/-- How many times our change handler is registered on the media query,
per registration API. -/
structure ListenerState where
  modernCount : Nat
  legacyCount : Nat
  deriving DecidableEq, Repr

/-- The system-change `useEffect` body: bail out with no registration when
`window` is absent or the preference is not `'system'`; otherwise try
`addEventListener` first, falling back to `addListener`, and record which
path was taken (the returned cleanup closure); with neither API available
nothing is registered and nothing throws. -/
def subscribeSystemChanges (env : Env) (theme : ThemePreference)
    (api : MediaQueryApi) (ls : ListenerState) : ListenerState × SubMethod :=
  if env.hasWindow = false ∨ theme ≠ .system then (ls, .noneAvail)
  else if api.hasAddEventListener then
    ({ ls with modernCount := ls.modernCount + 1 }, .modern)
  else if api.hasAddListener then
    ({ ls with legacyCount := ls.legacyCount + 1 }, .legacy)
  else (ls, .noneAvail)

/-- The cleanup returned by the subscription effect: remove the handler
through exactly the API it was registered with; when nothing was
registered the cleanup is a no-op. -/
def unsubscribeSystemChanges (ls : ListenerState) : SubMethod → ListenerState
  | .modern => { ls with modernCount := ls.modernCount - 1 }
  | .legacy => { ls with legacyCount := ls.legacyCount - 1 }
  | .noneAvail => ls

/-- Delivery of an OS color-scheme change event: the handler runs exactly
when it is still registered (via either API); otherwise the event leaves
the session untouched. -/
def dispatchSystemChange (ls : ListenerState) (s : SessionState)
    (eMatches : Bool) : SessionState :=
  if ls.modernCount + ls.legacyCount = 0 then s
  else handleSystemThemeChange s eMatches

/-- The context value handed to consumers (the `setTheme` closure itself
is the operation modelled above and is not a data field here). -/
structure ThemeContextType where
  theme : ThemePreference
  resolvedTheme : ResolvedTheme
  deriving DecidableEq, Repr

/-- `useTheme`: read the context; throw
`'useTheme must be used within a ThemeProvider'` when no provider
supplied a value, otherwise return it. -/
def useTheme (context : Option ThemeContextType) :
    Except String ThemeContextType :=
  match context with
  | none => .error "useTheme must be used within a ThemeProvider"
  | some c => .ok c

/-- Resolution as the specification states it, word for word: a
non-`system` preference resolves to itself, `system` resolves to the OS
color scheme (`osDark` = the OS prefers dark). -/
def specResolve (p : ThemePreference) (osDark : Bool) : ResolvedTheme :=
  match p with
  | .light => .light
  | .dark => .dark
  | .system => if osDark then .dark else .light

/-- The preference adopted at initialization, as the specification states
it: the persisted value when present and one of the three valid literal
values, otherwise the default. -/
def adoptedPreference (items : List (String × String)) (key : String)
    (d : ThemePreference) : ThemePreference :=
  match items.lookup key with
  | none => d
  | some s =>
      if s = "light" then .light
      else if s = "dark" then .dark
      else if s = "system" then .system
      else d

/-- The render target carries a theme marker set reflecting exactly `t`:
the marker for `t` present, the other marker absent. -/
def marksExactly (dom : Dom) (t : ResolvedTheme) : Prop :=
  ("light" ∈ dom.rootClasses ↔ t = .light) ∧
  ("dark" ∈ dom.rootClasses ↔ t = .dark)

/-! ## Helper lemmas (shared) -/

theorem mem_classListRemove (cs : List String) (c x : String) :
    x ∈ classListRemove cs c ↔ x ∈ cs ∧ x ≠ c := by
  simp [classListRemove]

theorem mem_classListAdd (cs : List String) (c x : String) :
    x ∈ classListAdd cs c ↔ x ∈ cs ∨ x = c := by
  by_cases h : c ∈ cs
  · simp only [classListAdd, if_pos h]
    exact ⟨Or.inl, fun hx => hx.elim id (fun he => he ▸ h)⟩
  · simp [classListAdd, if_neg h]

theorem applyTheme_marks (env : Env) (dom : Dom) (st : ProviderState)
    (t : ResolvedTheme) (hw : env.hasWindow = true) :
    marksExactly (applyTheme env dom st t).1 t ∧
    (applyTheme env dom st t).2.resolvedTheme = t ∧
    (applyTheme env dom st t).2.theme = st.theme := by
  cases t <;>
    simp [applyTheme, hw, marksExactly, mem_classListAdd, mem_classListRemove,
      resolvedToString]

theorem resolveTheme_ok_eq (b : Bool) (p : ThemePreference) :
    resolveTheme { hasWindow := true, osQuery := .ok b } p =
      (specResolve p b, 0) := by
  cases p <;> cases b <;> simp [resolveTheme, getSystemTheme, specResolve]

theorem getStoredTheme_ok_eq (env : Env) (hw : env.hasWindow = true)
    (items : List (String × String)) (key : String) (d : ThemePreference) :
    ((getStoredTheme env { items := items, failing := false } key).1.getD d
        = adoptedPreference items key d) ∧
    (getStoredTheme env { items := items, failing := false } key).2 = 0 := by
  simp only [getStoredTheme, hw, Storage.getItem, if_neg (by simp : ¬(false = true))]
  cases h : items.lookup key with
  | none => simp [adoptedPreference, h]
  | some s =>
      by_cases h1 : s = "light"
      · subst h1; simp [adoptedPreference, h, parseStoredTheme]
      · by_cases h2 : s = "dark"
        · subst h2; simp [adoptedPreference, h, parseStoredTheme]
        · by_cases h3 : s = "system"
          · subst h3; simp [adoptedPreference, h, parseStoredTheme]
          · simp [adoptedPreference, h, h1, h2, h3]

/-- Build a browser session with an arbitrary OS-query outcome (working or
throwing) and an arbitrary prior warning count. -/
def mkSessionOs (os : Except Unit Bool) (key : String)
    (items : List (String × String)) (failing : Bool) (dom : Dom)
    (st : ProviderState) (w : Nat) : SessionState :=
  { env := { hasWindow := true, osQuery := os }
    storageKey := key
    storage := { items := items, failing := failing }
    dom := dom
    provider := st
    warnings := w }

theorem marks_of_apply (env : Env) (dom : Dom) (st : ProviderState)
    (t : ResolvedTheme) (hw : env.hasWindow = true) :
    marksExactly (applyTheme env dom st t).1
      ((applyTheme env dom st t).2.resolvedTheme) := by
  have h := applyTheme_marks env dom st t hw
  rw [h.2.1]
  exact h.1

theorem initializeTheme_marks (s : SessionState) (d : ThemePreference)
    (hw : s.env.hasWindow = true) :
    marksExactly (initializeTheme s d).dom
      (initializeTheme s d).provider.resolvedTheme :=
  marks_of_apply s.env s.dom _ _ hw

theorem setTheme_marks (s : SessionState) (newTheme : ThemePreference)
    (hw : s.env.hasWindow = true) :
    marksExactly (setTheme s newTheme).dom
      (setTheme s newTheme).provider.resolvedTheme :=
  marks_of_apply s.env s.dom _ _ hw

theorem handleSystemThemeChange_marks (s : SessionState) (eMatches : Bool)
    (hw : s.env.hasWindow = true) :
    marksExactly (handleSystemThemeChange s eMatches).dom
      (handleSystemThemeChange s eMatches).provider.resolvedTheme :=
  marks_of_apply s.env s.dom _ _ hw

theorem adoptedPreference_cons_self (p d : ThemePreference) (key : String)
    (items : List (String × String)) :
    adoptedPreference ((key, themeToString p) :: items) key d = p := by
  cases p <;> simp [adoptedPreference, themeToString, List.lookup]

theorem setTheme_storage_ok (b : Bool) (key : String)
    (items : List (String × String)) (dom : Dom) (st0 : ProviderState)
    (p : ThemePreference) :
    (setTheme (mkSession b key items false dom st0) p).storage
      = { items := (key, themeToString p) :: items, failing := false } := rfl

theorem initializeTheme_ok_spec (d : ThemePreference) (b : Bool) (key : String)
    (items : List (String × String)) (dom : Dom) (st0 : ProviderState) :
    (initializeTheme (mkSession b key items false dom st0) d).provider.theme
        = adoptedPreference items key d ∧
    (initializeTheme (mkSession b key items false dom st0) d).provider.resolvedTheme
        = specResolve (adoptedPreference items key d) b ∧
    marksExactly (initializeTheme (mkSession b key items false dom st0) d).dom
        (specResolve (adoptedPreference items key d) b) ∧
    (initializeTheme (mkSession b key items false dom st0) d).warnings = 0 := by
  have hg := getStoredTheme_ok_eq { hasWindow := true, osQuery := Except.ok b }
    rfl items key d
  have h1 : (initializeTheme (mkSession b key items false dom st0) d).provider.theme
      = adoptedPreference items key d := hg.1
  have h2 : (initializeTheme (mkSession b key items false dom st0) d).provider.resolvedTheme
      = specResolve (adoptedPreference items key d) b := by
    have he : (initializeTheme (mkSession b key items false dom st0) d).provider.resolvedTheme
        = (resolveTheme { hasWindow := true, osQuery := Except.ok b }
            ((getStoredTheme { hasWindow := true, osQuery := Except.ok b }
              { items := items, failing := false } key).1.getD d)).1 := rfl
    rw [he, hg.1, resolveTheme_ok_eq]
  have h3 : marksExactly (initializeTheme (mkSession b key items false dom st0) d).dom
      (specResolve (adoptedPreference items key d) b) := by
    have hm := initializeTheme_marks (mkSession b key items false dom st0) d rfl
    rw [h2] at hm
    exact hm
  have h4 : (initializeTheme (mkSession b key items false dom st0) d).warnings = 0 := by
    have he : (initializeTheme (mkSession b key items false dom st0) d).warnings
        = 0 + (getStoredTheme { hasWindow := true, osQuery := Except.ok b }
              { items := items, failing := false } key).2
            + (resolveTheme { hasWindow := true, osQuery := Except.ok b }
                ((getStoredTheme { hasWindow := true, osQuery := Except.ok b }
                  { items := items, failing := false } key).1.getD d)).2 := rfl
    rw [he, hg.1, hg.2, resolveTheme_ok_eq]
    rfl
  exact ⟨h1, h2, h3, h4⟩

/-! ## Claim theorems -/

/-- C1: theme resolution is a pure, total function of the preference and
the OS color scheme: with a working OS query answering `b`, a non-`system`
preference resolves to itself and `system` resolves to the OS value
(`specResolve` states the specification's equation verbatim), and the
result is always exactly `light` or `dark`, never `system`. -/
theorem C1_resolveTheme_pure_total (p : ThemePreference) (b : Bool) :
    (resolveTheme { hasWindow := true, osQuery := Except.ok b } p).1
        = specResolve p b ∧
    ((resolveTheme { hasWindow := true, osQuery := Except.ok b } p).1 = .light ∨
     (resolveTheme { hasWindow := true, osQuery := Except.ok b } p).1 = .dark) := by
  constructor
  · rw [resolveTheme_ok_eq]
  · cases h : (resolveTheme { hasWindow := true, osQuery := Except.ok b } p).1
    · exact Or.inl rfl
    · exact Or.inr rfl

/-- C2: on any non-failing storage, initialization adopts the persisted
value when present and valid, otherwise the default (`adoptedPreference`
states the specification's rule verbatim); it resolves the adopted
preference against the OS signal, applies the result to the render target,
and yields a valid pair — in particular with no persisted value and default
`system` it yields (`system`, OS value), and with a persisted `light`/`dark`
it yields that value regardless of the OS signal (instances of the general
equations). -/
theorem C2_initializeTheme_spec (d : ThemePreference) (b : Bool) (key : String)
    (items : List (String × String)) (dom : Dom) (st0 : ProviderState) :
    (initializeTheme (mkSession b key items false dom st0) d).provider.theme
        = adoptedPreference items key d ∧
    (initializeTheme (mkSession b key items false dom st0) d).provider.resolvedTheme
        = specResolve (adoptedPreference items key d) b ∧
    marksExactly (initializeTheme (mkSession b key items false dom st0) d).dom
        (specResolve (adoptedPreference items key d) b) ∧
    ((initializeTheme (mkSession b key items false dom st0) d).provider.resolvedTheme
        = .light ∨
     (initializeTheme (mkSession b key items false dom st0) d).provider.resolvedTheme
        = .dark) := by
  have h := initializeTheme_ok_spec d b key items dom st0
  refine ⟨h.1, h.2.1, h.2.2.1, ?_⟩
  cases hr : (initializeTheme (mkSession b key items false dom st0) d).provider.resolvedTheme
  · exact Or.inl rfl
  · exact Or.inr rfl

/-- C3: `setTheme` sets the in-memory preference to the new value, persists
it under the configured key when storage works (and leaves storage alone
with exactly one warning when it fails), recomputes the resolved theme per
the specification's resolution rule, and applies it to the render target. -/
theorem C3_setTheme_spec (newTheme : ThemePreference) (b : Bool) (key : String)
    (items : List (String × String)) (failing : Bool) (dom : Dom)
    (st0 : ProviderState) :
    (setTheme (mkSession b key items failing dom st0) newTheme).provider.theme
        = newTheme ∧
    (setTheme (mkSession b key items failing dom st0) newTheme).provider.resolvedTheme
        = specResolve newTheme b ∧
    (setTheme (mkSession b key items failing dom st0) newTheme).storage.items.lookup key
        = (if failing then items.lookup key else some (themeToString newTheme)) ∧
    (setTheme (mkSession b key items failing dom st0) newTheme).warnings
        = (if failing then 1 else 0) ∧
    marksExactly (setTheme (mkSession b key items failing dom st0) newTheme).dom
        (specResolve newTheme b) := by
  refine ⟨rfl, ?_, ?_, ?_, ?_⟩
  · cases newTheme <;> rfl
  · cases failing
    · simp [setTheme, mkSession, saveTheme, Storage.setItem, List.lookup]
    · rfl
  · cases failing <;> cases newTheme <;> rfl
  · cases newTheme <;> exact (applyTheme_marks _ _ _ _ rfl).1

/-- C4: persistence round-trip — with working storage, `setTheme p`
followed by a simulated reload (initialization over the resulting storage
under the same key, with any default, any OS signal, and fresh render and
provider state) adopts exactly `p`. -/
theorem C4_persistence_round_trip (p d : ThemePreference) (b b2 : Bool)
    (key : String) (items : List (String × String)) (dom dom2 : Dom)
    (st0 st2 : ProviderState) :
    (initializeTheme
        (mkSession b2 key
          (setTheme (mkSession b key items false dom st0) p).storage.items
          false dom2 st2) d).provider.theme = p := by
  have h := (initializeTheme_ok_spec d b2 key
    ((key, themeToString p) :: items) dom2 st2).1
  rw [adoptedPreference_cons_self] at h
  exact h

/-- C5: storage-failure resilience — when both storage reads and writes
throw, initialization still adopts the default preference and resolves it,
and `setTheme` still updates the in-memory state and resolves it with the
storage contents untouched; each failing call logs exactly one warning. -/
theorem C5_storage_failure_resilience (d newTheme : ThemePreference)
    (b : Bool) (key : String) (items : List (String × String)) (dom : Dom)
    (st0 : ProviderState) :
    (initializeTheme (mkSession b key items true dom st0) d).provider.theme = d ∧
    (initializeTheme (mkSession b key items true dom st0) d).provider.resolvedTheme
        = specResolve d b ∧
    (initializeTheme (mkSession b key items true dom st0) d).warnings = 1 ∧
    (setTheme (mkSession b key items true dom st0) newTheme).provider.theme
        = newTheme ∧
    (setTheme (mkSession b key items true dom st0) newTheme).provider.resolvedTheme
        = specResolve newTheme b ∧
    (setTheme (mkSession b key items true dom st0) newTheme).storage
        = { items := items, failing := true } ∧
    (setTheme (mkSession b key items true dom st0) newTheme).warnings = 1 := by
  refine ⟨rfl, ?_, ?_, rfl, ?_, rfl, ?_⟩
  · cases d <;> rfl
  · cases d <;> rfl
  · cases newTheme <;> rfl
  · cases newTheme <;> rfl

/-- C6: when the OS signal query throws or is unsupported, the system-theme
read logs exactly one warning and falls back to `light`; resolving `system`
does the same, and resolution of any preference still returns a concrete
`light`/`dark` value — the failure is never surfaced to the consumer. -/
theorem C6_os_failure_falls_back_light :
    getSystemTheme { hasWindow := true, osQuery := Except.error () }
        = (.light, 1) ∧
    resolveTheme { hasWindow := true, osQuery := Except.error () } .system
        = (.light, 1) ∧
    (∀ p : ThemePreference,
      (resolveTheme { hasWindow := true, osQuery := Except.error () } p).1
          = .light ∨
      (resolveTheme { hasWindow := true, osQuery := Except.error () } p).1
          = .dark) := by
  refine ⟨rfl, rfl, fun p => ?_⟩
  cases h : (resolveTheme { hasWindow := true, osQuery := Except.error () } p).1
  · exact Or.inl rfl
  · exact Or.inr rfl

/-- C7: every application of a theme to the render target — directly via
`applyTheme`, and at the end of initialization, `setTheme`, and the
OS-change handler — swaps the theme marker in one atomic transition: the
old marker is removed, the new one added, and afterwards the root carries
exactly the marker of the current resolved theme. -/
theorem C7_theme_marker_swap (os : Except Unit Bool) (key : String)
    (items : List (String × String)) (failing : Bool) (dom : Dom)
    (st0 : ProviderState) (w : Nat) (t : ResolvedTheme)
    (d newTheme : ThemePreference) (eMatches : Bool) :
    (marksExactly
        (applyTheme { hasWindow := true, osQuery := os } dom st0 t).1 t ∧
      (applyTheme { hasWindow := true, osQuery := os } dom st0 t).2.resolvedTheme
        = t) ∧
    marksExactly
      (initializeTheme (mkSessionOs os key items failing dom st0 w) d).dom
      (initializeTheme (mkSessionOs os key items failing dom st0 w) d).provider.resolvedTheme ∧
    marksExactly
      (setTheme (mkSessionOs os key items failing dom st0 w) newTheme).dom
      (setTheme (mkSessionOs os key items failing dom st0 w) newTheme).provider.resolvedTheme ∧
    marksExactly
      (handleSystemThemeChange (mkSessionOs os key items failing dom st0 w) eMatches).dom
      (handleSystemThemeChange (mkSessionOs os key items failing dom st0 w) eMatches).provider.resolvedTheme := by
  have ha := applyTheme_marks { hasWindow := true, osQuery := os } dom st0 t rfl
  exact ⟨⟨ha.1, ha.2.1⟩,
    initializeTheme_marks (mkSessionOs os key items failing dom st0 w) d rfl,
    setTheme_marks (mkSessionOs os key items failing dom st0 w) newTheme rfl,
    handleSystemThemeChange_marks (mkSessionOs os key items failing dom st0 w)
      eMatches rfl⟩

/-- C8: while the preference is `system`, each OS color-scheme change event
sets the resolved theme to the new OS value and re-applies it to the render
target, leaving the preference and the storage contents untouched; and the
subscription effect registers no listener for a non-`system` preference,
while for `system` (with a window) it registers one exactly when some
registration API is available. -/
theorem C8_system_change_handler (os : Except Unit Bool) (key : String)
    (items : List (String × String)) (failing : Bool) (dom : Dom)
    (st0 : ProviderState) (w : Nat) (eMatches : Bool)
    (api : MediaQueryApi) (ls : ListenerState) :
    (handleSystemThemeChange (mkSessionOs os key items failing dom st0 w)
        eMatches).provider.resolvedTheme
      = (if eMatches then ResolvedTheme.dark else ResolvedTheme.light) ∧
    (handleSystemThemeChange (mkSessionOs os key items failing dom st0 w)
        eMatches).provider.theme = st0.theme ∧
    (handleSystemThemeChange (mkSessionOs os key items failing dom st0 w)
        eMatches).storage = { items := items, failing := failing } ∧
    (handleSystemThemeChange (mkSessionOs os key items failing dom st0 w)
        eMatches).warnings = w ∧
    marksExactly
      (handleSystemThemeChange (mkSessionOs os key items failing dom st0 w)
        eMatches).dom
      (if eMatches then ResolvedTheme.dark else ResolvedTheme.light) ∧
    subscribeSystemChanges { hasWindow := true, osQuery := os }
        .light api ls = (ls, .noneAvail) ∧
    subscribeSystemChanges { hasWindow := true, osQuery := os }
        .dark api ls = (ls, .noneAvail) ∧
    ((subscribeSystemChanges { hasWindow := true, osQuery := os }
        .system api ls).2 = SubMethod.noneAvail ↔
      (api.hasAddEventListener = false ∧ api.hasAddListener = false)) := by
  refine ⟨rfl, rfl, rfl, rfl, ?_, rfl, rfl, ?_⟩
  · exact (applyTheme_marks { hasWindow := true, osQuery := os } dom
      { st0 with resolvedTheme :=
          if eMatches then ResolvedTheme.dark else ResolvedTheme.light }
      (if eMatches then ResolvedTheme.dark else ResolvedTheme.light) rfl).1
  · rcases api with ⟨ae, al⟩
    cases ae <;> cases al <;> simp [subscribeSystemChanges]

/-- C9: the subscription effect tries the modern registration API first and
falls back to the legacy one; the cleanup it returns removes exactly the
listener it registered (composing subscribe with its unsubscribe restores
the listener state, and with no API available both are no-ops); starting
from no registered listener, a subscribe/unsubscribe pair leaves OS change
events with no effect on the session. -/
theorem C9_subscription_teardown (env : Env) (theme : ThemePreference)
    (api : MediaQueryApi) (ls : ListenerState) (os : Except Unit Bool)
    (al : Bool) (key : String) (items : List (String × String))
    (failing : Bool) (dom : Dom) (st0 : ProviderState) (w : Nat)
    (eMatches : Bool) :
    unsubscribeSystemChanges (subscribeSystemChanges env theme api ls).1
        (subscribeSystemChanges env theme api ls).2 = ls ∧
    subscribeSystemChanges { hasWindow := true, osQuery := os } .system
        { hasAddEventListener := true, hasAddListener := al } ls
      = ({ ls with modernCount := ls.modernCount + 1 }, .modern) ∧
    subscribeSystemChanges { hasWindow := true, osQuery := os } .system
        { hasAddEventListener := false, hasAddListener := true } ls
      = ({ ls with legacyCount := ls.legacyCount + 1 }, .legacy) ∧
    subscribeSystemChanges { hasWindow := true, osQuery := os } .system
        { hasAddEventListener := false, hasAddListener := false } ls
      = (ls, .noneAvail) ∧
    unsubscribeSystemChanges ls .noneAvail = ls ∧
    dispatchSystemChange
        (unsubscribeSystemChanges
          (subscribeSystemChanges env theme api
            { modernCount := 0, legacyCount := 0 }).1
          (subscribeSystemChanges env theme api
            { modernCount := 0, legacyCount := 0 }).2)
        (mkSessionOs os key items failing dom st0 w) eMatches
      = mkSessionOs os key items failing dom st0 w := by
  have hsub : ∀ (env : Env) (theme : ThemePreference) (api : MediaQueryApi)
      (ls : ListenerState),
      unsubscribeSystemChanges (subscribeSystemChanges env theme api ls).1
        (subscribeSystemChanges env theme api ls).2 = ls := by
    intro env theme api ls
    rcases ls with ⟨m, l⟩
    by_cases h : env.hasWindow = false ∨ theme ≠ .system
    · simp [subscribeSystemChanges, h, unsubscribeSystemChanges]
    · by_cases h1 : api.hasAddEventListener
      · simp [subscribeSystemChanges, h, h1, unsubscribeSystemChanges]
      · by_cases h2 : api.hasAddListener
        · simp [subscribeSystemChanges, h, h1, h2, unsubscribeSystemChanges]
        · simp [subscribeSystemChanges, h, h1, h2, unsubscribeSystemChanges]
  refine ⟨hsub env theme api ls, rfl, rfl, rfl, rfl, ?_⟩
  rw [hsub env theme api { modernCount := 0, legacyCount := 0 }]
  rfl

/-- C10: the consumer hook throws exactly the error
`useTheme must be used within a ThemeProvider` when no provider context
value is present, and returns the context value unchanged when one is. -/
theorem C10_useTheme_contract :
    useTheme none = .error "useTheme must be used within a ThemeProvider" ∧
    ∀ c : ThemeContextType, useTheme (some c) = .ok c :=
  ⟨rfl, fun _ => rfl⟩
